import Mathlib

/-!
Shallow embedding of the bootstrap / reconciler-registration orchestrator of
the opendatahub-operator repository:

* `src/internal/bootstrap/operator/main_operator.go` (package `operator` and
  package `factory`),
* `src/cmd/main.go`.

Go's `(ctx) -> error` functions are modelled as values of `Except String Unit`
supplied by an environment record (the outcome each external call would have),
so the control flow of `Setup`, `addStartupTasks`, the cache-config builders
and the factory is translated literally from the source.  Effectful
collaborator calls (client construction, cluster probing, manager operations,
webhook registration, reconciler construction) are fields of the environment;
the functions of package `cluster` (`GetOperatorNamespace`,
`GetApplicationNamespace`, `NamespaceConsoleLink`, the platform enumeration)
are code of this repository that is not under `src/` and are modelled from the
spec where noted.
-/

set_option autoImplicit false

namespace ODH

/-- Context value passed to runnables; carries an identifying token so that
distinct contexts are distinguishable. -/
structure Ctx where
  token : Nat
deriving DecidableEq

/-- Process configuration (`operatorconfig.Config`): connection descriptor and
bind addresses are opaque strings, the leader-election toggle a Bool. -/
structure Config where
  metricsAddr : String
  pprofAddr : String
  healthProbeAddr : String
  leaderElection : Bool
  monitoringNamespace : String
deriving DecidableEq

/-- Modelled from the spec: the enumerated deployment flavor (`Platform` of
package `cluster`, not under `src/`): a managed variant
(`cluster.ManagedRhoai`) versus other flavors. -/
inductive Platform where
  | openDataHub
  | selfManagedRhoai
  | managedRhoai
deriving DecidableEq

/-- Modelled from the spec: `cluster.NamespaceConsoleLink`, the console-link
namespace constant of package `cluster` (not under `src/`). -/
def NamespaceConsoleLink : String := "openshift-console"

/-- Modelled from the spec: outcomes of the namespace lookups of package
`cluster` (not under `src/`): `GetOperatorNamespace` is fallible,
`GetApplicationNamespace` returns a plain string (no error return at its call
site in `getCommonCache`). -/
structure ClusterEnv where
  operatorNs : Except String String
  appNamespace : String

/-- `mainOperator.getCommonCache`: the base namespace set (keys of the Go
`map[string]cache.Config`): operator namespace, the fixed monitoring
namespace, the application namespace, plus the console-link namespace only on
the managed platform. -/
def getCommonCache (c : ClusterEnv) (platform : Platform) :
    Except String (Finset String) :=
  match c.operatorNs with
  | .error e => .error e
  | .ok operatorNs =>
    let s : Finset String := {operatorNs}
    let s : Finset String := insert "redhat-ods-monitoring" s
    let s : Finset String := insert c.appNamespace s
    let s : Finset String :=
      if platform = Platform.managedRhoai then insert NamespaceConsoleLink s else s
    .ok s

/-- `mainOperator.createSecretCacheConfig`: common cache plus the
`openshift-ingress` namespace. -/
def createSecretCacheConfig (c : ClusterEnv) (platform : Platform) :
    Except String (Finset String) :=
  match getCommonCache c platform with
  | .error e => .error e
  | .ok namespaceConfigs => .ok (insert "openshift-ingress" namespaceConfigs)

/-- `mainOperator.createODHGeneralCacheConfig`: common cache plus
`openshift-operators` and `openshift-ingress`. -/
def createODHGeneralCacheConfig (c : ClusterEnv) (platform : Platform) :
    Except String (Finset String) :=
  match getCommonCache c platform with
  | .error e => .error e
  | .ok namespaceConfigs =>
    .ok (insert "openshift-ingress" (insert "openshift-operators" namespaceConfigs))

/-- A cached object as seen by the cache's `DefaultTransform` hook:
either an object whose metadata accessor succeeds (carrying possibly-nil
managed fields) or one on which `meta.Accessor` fails. -/
inductive CacheEntry where
  | withMeta (managedFields : Option (List String)) (payload : String)
  | noMeta (payload : String)
deriving DecidableEq

/-- `cacheOptions.DefaultTransform`: if the metadata accessor succeeds and the
managed fields are non-nil, they are cleared; in every case the (possibly
mutated) input object and a nil error are returned. -/
def DefaultTransform : CacheEntry → CacheEntry × Option String
  | .withMeta (some _) payload => (.withMeta none payload, none)
  | obj => (obj, none)

/-- `crtlmanager.RunnableFunc`, a plain context-to-error function. -/
def RunnableFunc : Type := Ctx → Except String Unit

/-- `leaderElectionRunnableWrapper`: wraps a `RunnableFunc`. -/
structure LeaderElectionRunnableWrapper where
  Fn : RunnableFunc

/-- `leaderElectionRunnableFunc`: wraps a plain function into a runnable. -/
def leaderElectionRunnableFunc (fn : RunnableFunc) : LeaderElectionRunnableWrapper :=
  { Fn := fn }

/-- `leaderElectionRunnableWrapper.Start`: delegates to the wrapped function
with the given context. -/
def LeaderElectionRunnableWrapper.Start (l : LeaderElectionRunnableWrapper)
    (ctx : Ctx) : Except String Unit :=
  l.Fn ctx

/-- `leaderElectionRunnableWrapper.NeedLeaderElection`: constantly true. -/
def LeaderElectionRunnableWrapper.NeedLeaderElection
    (_ : LeaderElectionRunnableWrapper) : Bool :=
  true

/-- The wrapped controller-runtime manager (`manager.Manager`), reduced to the
outcome its blocking `Start` would produce. -/
structure Manager where
  startResult : Except String Unit

/-- `mainOperator`: configuration, registered scheme, and the manager pointer,
which is nil (`none`) until `Setup` assigns it. -/
structure MainOperator where
  config : Config
  schemeRegistered : Bool
  mgr : Option Manager

/-- `operator.New`: builds a fresh scheme, registers all schemes on it, and
returns an operator whose `mgr` field is left nil. -/
def New (cfg : Config) : MainOperator :=
  { config := cfg, schemeRegistered := true, mgr := none }

/-- `mainOperator.Start`: `return o.mgr.Start(ctx)`.  A nil manager pointer
makes this a nil dereference, modelled as `none` (panic / undefined), as
opposed to `some` of an error return. -/
def MainOperator.Start (o : MainOperator) (ctx : Ctx) : Option (Except String Unit) :=
  match o.mgr with
  | none => none
  | some m =>
    let _ := ctx
    some m.startResult

/-- `factory.OperatorTypeMain`. -/
def OperatorTypeMain : String := "main"

/-- `factory.OperatorTypeCloudManager`. -/
def OperatorTypeCloudManager : String := "cloud-manager"

/-- `factory.Factory`: holds the configuration. -/
structure Factory where
  config : Config
deriving DecidableEq

/-- `factory.NewFactory`. -/
def NewFactory (cfg : Config) : Factory :=
  { config := cfg }

/-- `Factory.Create`: dispatches on the operator-type tag; the main kind
constructs an operator, the cloud-manager kind fails with a not-implemented
error, and every other tag fails with an unknown-kind error naming the tag. -/
def Factory.Create (f : Factory) (operatorType : String) :
    Except String MainOperator :=
  if operatorType = OperatorTypeMain then
    .ok (New f.config)
  else if operatorType = OperatorTypeCloudManager then
    .error "cloud-manager operator not yet implemented"
  else
    .error ("unknown operator type: " ++ operatorType)

/-- Environment for one `Setup` run: the outcome of every external call
`Setup` (and `addStartupTasks`) performs, in source order.  The two registrar
fields aggregate the `ForEach` loops over the service and component handler
registries. -/
structure SetupEnv where
  clientNew : Except String Unit
  clusterInit : Except String Unit
  platform : Platform
  serviceInit : Except String Unit
  componentInit : Except String Unit
  cluster : ClusterEnv
  newManager : Except String Unit
  registerWebhooks : Except String Unit
  dsciController : Except String Unit
  dscController : Except String Unit
  serviceReconcilers : Except String Unit
  componentReconcilers : Except String Unit
  disableDSCConfig : Option String
  mgrAddDSCI : Except String Unit
  mgrAddDSC : Except String Unit
  mgrAddCleanup : Except String Unit
  addHealthz : Except String Unit
  addReadyz : Except String Unit

/-- Error wrapping: `fmt.Errorf("msg: %w", err)`. -/
def wrapErr (msg : String) : Except String Unit → Except String Unit
  | .ok _ => .ok ()
  | .error e => .error (msg ++ e)

/-- Go condition `existDSCConfig && disableDSCConfig != "false"` on the value
of the `DISABLE_DSC_CONFIG` environment variable (`none` = unset). -/
def dsciDisabled : Option String → Bool
  | some v => v != "false"
  | none => false

/-- Outcome of `addStartupTasks`: which of the three startup tasks had
`mgr.Add` invoked for them, and the returned error value. -/
structure TasksOutcome where
  dsciAdded : Bool
  dscAdded : Bool
  cleanupAdded : Bool
  result : Except String Unit

/-- Tail of `addStartupTasks` after the two conditional registrations: the
cleanup task is built and `mgr.Add` is invoked on it unconditionally; an
`Add` failure is only logged and the function returns nil. -/
def addCleanupTask (_env : SetupEnv) (dsciAdded dscAdded : Bool) : TasksOutcome :=
  { dsciAdded := dsciAdded, dscAdded := dscAdded, cleanupAdded := true,
    result := .ok () }

/-- Middle of `addStartupTasks`: on the managed platform the default-DSC task
is registered, with an `Add` failure returned as a wrapped error; otherwise
control falls through to the cleanup registration. -/
def addDSCTask (env : SetupEnv) (dsciAdded : Bool) : TasksOutcome :=
  if env.platform = Platform.managedRhoai then
    match env.mgrAddDSC with
    | .error e =>
      { dsciAdded := dsciAdded, dscAdded := true, cleanupAdded := false,
        result := .error ("error scheduling DSC creation: " ++ e) }
    | .ok _ => addCleanupTask env dsciAdded true
  else
    addCleanupTask env dsciAdded false

/-- `mainOperator.addStartupTasks`: unless `DISABLE_DSC_CONFIG` is present
with a value other than `"false"`, the default-DSCI task is registered (a
failing `mgr.Add` aborts with a wrapped error); then the conditional DSC task
and the unconditional cleanup task. -/
def addStartupTasks (env : SetupEnv) : TasksOutcome :=
  if dsciDisabled env.disableDSCConfig then
    addDSCTask env false
  else
    match env.mgrAddDSCI with
    | .error e =>
      { dsciAdded := true, dscAdded := false, cleanupAdded := false,
        result := .error ("error scheduling DSCI creation: " ++ e) }
    | .ok _ => addDSCTask env true

/-- The nine steps of `Setup`, in source order. -/
inductive Step where
  | clusterProbe
  | handlerInit
  | cachePolicy
  | managerConstruction
  | webhookRegistration
  | builtinReconcilers
  | pluggableReconcilers
  | startupTasks
  | healthChecks
deriving DecidableEq

/-- The order in which `Setup` executes its steps. -/
def stepOrder : List Step :=
  [Step.clusterProbe, Step.handlerInit, Step.cachePolicy,
   Step.managerConstruction, Step.webhookRegistration, Step.builtinReconcilers,
   Step.pluggableReconcilers, Step.startupTasks, Step.healthChecks]

/-- Outcome of one `Setup` step, with the error wrapped by the
step-identifying message the source attaches to it. -/
def runStep (env : SetupEnv) : Step → Except String Unit
  | .clusterProbe => do
    wrapErr "error getting client for setup: " env.clientNew
    wrapErr "unable to initialize cluster config: " env.clusterInit
  | .handlerInit => do
    wrapErr "unable to init services: " env.serviceInit
    wrapErr "unable to init components: " env.componentInit
  | .cachePolicy => do
    wrapErr "unable to get application namespace into cache: "
      ((createSecretCacheConfig env.cluster env.platform).map fun _ => ())
    wrapErr "unable to get application namespace into cache: "
      ((createODHGeneralCacheConfig env.cluster env.platform).map fun _ => ())
  | .managerConstruction => wrapErr "unable to start manager: " env.newManager
  | .webhookRegistration => wrapErr "unable to register webhooks: " env.registerWebhooks
  | .builtinReconcilers => do
    wrapErr "unable to create controller DSCInitialization: " env.dsciController
    wrapErr "unable to create controller DataScienceCluster: " env.dscController
  | .pluggableReconcilers => do
    wrapErr "unable to create service controllers: " env.serviceReconcilers
    wrapErr "unable to create component controllers: " env.componentReconcilers
  | .startupTasks => (addStartupTasks env).result
  | .healthChecks => do
    wrapErr "unable to set up health check: " env.addHealthz
    wrapErr "unable to set up ready check: " env.addReadyz

/-- Sequential execution of a list of steps, recording the steps that were
entered and stopping at the first error (fail-fast, no rollback). -/
def runSteps (env : SetupEnv) : List Step → List Step × Except String Unit
  | [] => ([], .ok ())
  | s :: rest =>
    match runStep env s with
    | .error e => ([s], .error e)
    | .ok _ =>
      let r := runSteps env rest
      (s :: r.1, r.2)

/-- `mainOperator.Setup`: runs the nine steps in order; returns the executed
step trace together with the result. -/
def Setup (env : SetupEnv) : List Step × Except String Unit :=
  runSteps env stepOrder

/-- Outcome of the `main` entry point: whether `op.Start` was reached and the
process exit code. -/
structure MainOutcome where
  startCalled : Bool
  exitCode : Nat
deriving DecidableEq

/-- `main` (from `src/cmd/main.go`), after a successful factory call: a
`Setup` error exits with code 1 without calling `Start`; otherwise `Start` is
called and its error decides the exit code. -/
def mainProcess (env : SetupEnv) (startResult : Except String Unit) : MainOutcome :=
  match (Setup env).2 with
  | .error _ => { startCalled := false, exitCode := 1 }
  | .ok _ =>
    match startResult with
    | .error _ => { startCalled := true, exitCode := 1 }
    | .ok _ => { startCalled := true, exitCode := 0 }

/-- A cluster whose namespace lookups succeed, for concrete evaluation. -/
def okCluster : ClusterEnv :=
  { operatorNs := .ok "opendatahub-operator-system", appNamespace := "opendatahub" }

/-- A cluster whose operator-namespace lookup fails. -/
def errCluster : ClusterEnv :=
  { operatorNs := .error "no operator namespace", appNamespace := "opendatahub" }

/-- A setup environment in which every external call succeeds, on the
non-managed platform, with `DISABLE_DSC_CONFIG` unset. -/
def okEnv : SetupEnv :=
  { clientNew := .ok (), clusterInit := .ok (), platform := Platform.openDataHub,
    serviceInit := .ok (), componentInit := .ok (), cluster := okCluster,
    newManager := .ok (), registerWebhooks := .ok (), dsciController := .ok (),
    dscController := .ok (), serviceReconcilers := .ok (),
    componentReconcilers := .ok (), disableDSCConfig := none,
    mgrAddDSCI := .ok (), mgrAddDSC := .ok (), mgrAddCleanup := .ok (),
    addHealthz := .ok (), addReadyz := .ok () }

/-- Like `okEnv` but with `DISABLE_DSC_CONFIG` set to the empty string. -/
def envEmptyDisable : SetupEnv := { okEnv with disableDSCConfig := some "" }

/-- Like `okEnv` but with the manager rejecting the DSCI startup task. -/
def envDSCIAddFails : SetupEnv := { okEnv with mgrAddDSCI := .error "add failed" }

/-- Like `okEnv` but with the manager rejecting the cleanup startup task. -/
def envCleanupAddFails : SetupEnv := { okEnv with mgrAddCleanup := .error "add failed" }

/-- Like `okEnv` but with the failing operator-namespace lookup. -/
def envNsFails : SetupEnv := { okEnv with cluster := errCluster }

/-- A concrete configuration value. -/
def cfgW : Config :=
  { metricsAddr := ":8080", pprofAddr := "", healthProbeAddr := ":8081",
    leaderElection := true, monitoringNamespace := "redhat-ods-monitoring" }

/-- The secret-cache namespace set computed for `okCluster` on the
non-managed platform. -/
def secretSetW : Finset String :=
  insert "openshift-ingress"
    (insert "opendatahub" (insert "redhat-ods-monitoring" {"opendatahub-operator-system"}))

/-- The general-cache namespace set computed for `okCluster` on the
non-managed platform. -/
def generalSetW : Finset String :=
  insert "openshift-ingress"
    (insert "openshift-operators"
      (insert "opendatahub" (insert "redhat-ods-monitoring" {"opendatahub-operator-system"})))

/-- Helper: `addDSCTask` passes the DSCI flag through unchanged. -/
theorem addDSCTask_dsciAdded (env : SetupEnv) (b : Bool) :
    (addDSCTask env b).dsciAdded = b := by
  unfold addDSCTask addCleanupTask
  by_cases hp : env.platform = Platform.managedRhoai
  · cases hm : env.mgrAddDSC <;> simp [hp, hm]
  · simp [hp]

/-- C1 counterexample: with `DISABLE_DSC_CONFIG` present but set to the empty
string, the startup-task phase runs yet the default-DSCI task is not
registered with the manager, refuting the claim that any value other than the
single disabling string leads to registration. -/
theorem dsci_empty_value_not_registered :
    envEmptyDisable.disableDSCConfig = some "" ∧
    Step.startupTasks ∈ (Setup envEmptyDisable).1 ∧
    (addStartupTasks envEmptyDisable).dsciAdded = false ∧
    (Setup envEmptyDisable).2 = .ok () := by
  refine ⟨rfl, by decide, rfl, rfl⟩

/-- C1 (amended): the default-DSCI-creation task is registered with the
manager if and only if `DISABLE_DSC_CONFIG` is absent or set to exactly
`"false"`; every other present value (the empty string included) disables the
registration. -/
theorem dsci_registration_iff (env : SetupEnv) :
    (addStartupTasks env).dsciAdded = true ↔
      (env.disableDSCConfig = none ∨ env.disableDSCConfig = some "false") := by
  unfold addStartupTasks
  cases hv : env.disableDSCConfig with
  | none =>
    simp [dsciDisabled]
    cases hm : env.mgrAddDSCI <;> simp [addDSCTask_dsciAdded]
  | some v =>
    by_cases h : v = "false"
    · subst h
      simp [dsciDisabled]
      cases hm : env.mgrAddDSCI <;> simp [addDSCTask_dsciAdded]
    · simp [dsciDisabled, h, addDSCTask_dsciAdded]

/-- C1 witness: with the variable unset, the task is registered. -/
theorem dsci_registration_iff_witness :
    (addStartupTasks okEnv).dsciAdded = true :=
  (dsci_registration_iff okEnv).mpr (Or.inl rfl)

/-- Helper: running a list of steps either executes them all successfully, or
splits the list at the first failing step, executing exactly the steps up to
and including it and returning that step's error. -/
theorem runSteps_spec (env : SetupEnv) (l : List Step) :
    ((runSteps env l).2 = .ok () ∧ (runSteps env l).1 = l ∧
      ∀ s ∈ l, runStep env s = .ok ()) ∨
    (∃ pre s suf e, l = pre ++ s :: suf ∧
      (runSteps env l).1 = pre ++ [s] ∧
      (runSteps env l).2 = .error e ∧
      runStep env s = .error e ∧
      ∀ t ∈ pre, runStep env t = .ok ()) := by
  induction l with
  | nil => exact Or.inl ⟨rfl, rfl, by simp⟩
  | cons s rest ih =>
    cases hs : runStep env s with
    | error e =>
      refine Or.inr ⟨[], s, rest, e, rfl, ?_, ?_, hs, by simp⟩
      · simp [runSteps, hs]
      · simp [runSteps, hs]
    | ok u =>
      cases u
      rcases ih with ⟨h2, h1, hall⟩ | ⟨pre, t, suf, e, hl, h1, h2, ht, hpre⟩
      · refine Or.inl ⟨?_, ?_, ?_⟩
        · simp [runSteps, hs, h2]
        · simp [runSteps, hs, h1]
        · intro x hx
          rcases List.mem_cons.mp hx with h | h
          · exact h ▸ hs
          · exact hall x h
      · refine Or.inr ⟨s :: pre, t, suf, e, by simp [hl], ?_, ?_, ht, ?_⟩
        · simp [runSteps, hs, h1]
        · simp [runSteps, hs, h2]
        · intro x hx
          rcases List.mem_cons.mp hx with h | h
          · exact h ▸ hs
          · exact hpre x h

/-- C3: `Setup` either runs all nine steps successfully in order, or splits
the ordered step list at the first failing step: exactly the steps up to and
including it are executed, its wrapped error is returned, no later step is
ever entered, and `main` then exits with code 1 without calling `Start`. -/
theorem setup_fail_fast (env : SetupEnv) (startResult : Except String Unit) :
    ((Setup env).2 = .ok () ∧ (Setup env).1 = stepOrder) ∨
    (∃ pre s suf e, stepOrder = pre ++ s :: suf ∧
      (Setup env).1 = pre ++ [s] ∧
      (Setup env).2 = .error e ∧
      runStep env s = .error e ∧
      (∀ t ∈ pre, runStep env t = .ok ()) ∧
      (∀ t ∈ suf, t ∉ (Setup env).1) ∧
      mainProcess env startResult = { startCalled := false, exitCode := 1 }) := by
  rcases runSteps_spec env stepOrder with ⟨h2, h1, _⟩ | ⟨pre, s, suf, e, hl, h1, h2, hstep, hpre⟩
  · exact Or.inl ⟨h2, h1⟩
  · refine Or.inr ⟨pre, s, suf, e, hl, h1, h2, hstep, hpre, ?_, ?_⟩
    · have hnodup : stepOrder.Nodup := by decide
      rw [hl] at hnodup
      rcases List.nodup_append.mp hnodup with ⟨_, hcons, hdisj⟩
      intro t htsuf hmem
      rw [show (Setup env).1 = pre ++ [s] from h1] at hmem
      rcases List.mem_append.mp hmem with hp | hone
      · exact hdisj hp (List.mem_cons_of_mem s htsuf)
      · rcases List.mem_singleton.mp hone with rfl
        exact (List.nodup_cons.mp hcons).1 htsuf
    · show mainProcess env startResult = _
      unfold mainProcess
      rw [show (Setup env).2 = .error e from h2]

/-- C3 witness: with every external call succeeding, all nine steps run in
order and `Setup` returns success. -/
theorem setup_fail_fast_witness :
    (Setup okEnv).2 = .ok () ∧ (Setup okEnv).1 = stepOrder := by
  rcases setup_fail_fast okEnv (.ok ()) with h | ⟨_, _, _, e, _, _, h2, _⟩
  · exact h
  · rw [show (Setup okEnv).2 = .ok () from rfl] at h2
    exact Except.noConfusion h2

/-- C2: the factory returns a constructed, not-yet-Setup operator (nil
manager) for the main kind, a not-implemented error for the cloud-manager
kind, an unknown-kind error naming the tag for every other tag, and never
returns an operator for any tag other than the main kind. -/
theorem factory_create_spec (f : Factory) :
    (Factory.Create f OperatorTypeMain = .ok (New f.config) ∧ (New f.config).mgr = none) ∧
    Factory.Create f OperatorTypeCloudManager =
      .error "cloud-manager operator not yet implemented" ∧
    (∀ t, t ≠ OperatorTypeMain → t ≠ OperatorTypeCloudManager →
      Factory.Create f t = .error ("unknown operator type: " ++ t)) ∧
    (∀ t op, Factory.Create f t = .ok op → t = OperatorTypeMain ∧ op = New f.config) := by
  refine ⟨⟨by simp [Factory.Create], rfl⟩,
    by simp [Factory.Create, OperatorTypeMain, OperatorTypeCloudManager], ?_, ?_⟩
  · intro t h1 h2
    simp [Factory.Create, h1, h2]
  · intro t op h
    by_cases h1 : t = OperatorTypeMain
    · subst h1
      simp [Factory.Create] at h
      exact ⟨rfl, h.symm⟩
    · by_cases h2 : t = OperatorTypeCloudManager
      · subst h2
        simp [Factory.Create, OperatorTypeMain, OperatorTypeCloudManager] at h
      · simp [Factory.Create, h1, h2] at h

/-- C2 witness: the tag `"bogus"` is neither recognized kind and produces the
unknown-kind error naming it. -/
theorem factory_create_spec_witness :
    Factory.Create (NewFactory cfgW) "bogus" = .error ("unknown operator type: " ++ "bogus") :=
  (factory_create_spec (NewFactory cfgW)).2.2.1 "bogus" (by decide) (by decide)

/-- Helper: membership in the base namespace set computed by
`getCommonCache`. -/
theorem mem_getCommonCache (c : ClusterEnv) (p : Platform) (ons x : String)
    (base : Finset String) (hons : c.operatorNs = .ok ons)
    (hb : getCommonCache c p = .ok base) :
    x ∈ base ↔ (x = ons ∨ x = "redhat-ods-monitoring" ∨ x = c.appNamespace ∨
      (p = Platform.managedRhoai ∧ x = NamespaceConsoleLink)) := by
  unfold getCommonCache at hb
  rw [hons] at hb
  by_cases hp : p = Platform.managedRhoai
  · simp only [hp, if_true, if_pos, Except.ok.injEq] at hb
    subst hb
    simp [Finset.mem_insert, Finset.mem_singleton, hp]
    tauto
  · simp only [hp, if_false, if_neg, Except.ok.injEq] at hb
    subst hb
    simp [Finset.mem_insert, Finset.mem_singleton, hp]
    tauto

/-- Helper: membership in the secret-cache namespace set. -/
theorem mem_secretCache (c : ClusterEnv) (p : Platform) (ons x : String)
    (secret : Finset String) (hons : c.operatorNs = .ok ons)
    (hs : createSecretCacheConfig c p = .ok secret) :
    x ∈ secret ↔ (x = "openshift-ingress" ∨ x = ons ∨ x = "redhat-ods-monitoring" ∨
      x = c.appNamespace ∨ (p = Platform.managedRhoai ∧ x = NamespaceConsoleLink)) := by
  unfold createSecretCacheConfig at hs
  cases hb : getCommonCache c p with
  | error e => rw [hb] at hs; exact absurd hs (by simp)
  | ok base =>
    rw [hb] at hs
    simp only [Except.ok.injEq] at hs
    subst hs
    simp [Finset.mem_insert, mem_getCommonCache c p ons x base hons hb]

/-- Helper: membership in the general-cache namespace set. -/
theorem mem_generalCache (c : ClusterEnv) (p : Platform) (ons x : String)
    (general : Finset String) (hons : c.operatorNs = .ok ons)
    (hg : createODHGeneralCacheConfig c p = .ok general) :
    x ∈ general ↔ (x = "openshift-ingress" ∨ x = "openshift-operators" ∨ x = ons ∨
      x = "redhat-ods-monitoring" ∨ x = c.appNamespace ∨
      (p = Platform.managedRhoai ∧ x = NamespaceConsoleLink)) := by
  unfold createODHGeneralCacheConfig at hg
  cases hb : getCommonCache c p with
  | error e => rw [hb] at hg; exact absurd hg (by simp)
  | ok base =>
    rw [hb] at hg
    simp only [Except.ok.injEq] at hg
    subst hg
    simp [Finset.mem_insert, mem_getCommonCache c p ons x base hons hb]

/-- C4: with the resolved operator and application namespaces distinct from
the console-link namespace, the secret-cache and general-cache namespace sets
contain the console-link namespace exactly when the platform is the managed
flavor. -/
theorem console_link_iff_managed (c : ClusterEnv) (p : Platform) (ons : String)
    (secret general : Finset String)
    (hons : c.operatorNs = .ok ons)
    (h1 : ons ≠ NamespaceConsoleLink)
    (h2 : c.appNamespace ≠ NamespaceConsoleLink)
    (hs : createSecretCacheConfig c p = .ok secret)
    (hg : createODHGeneralCacheConfig c p = .ok general) :
    (NamespaceConsoleLink ∈ secret ↔ p = Platform.managedRhoai) ∧
    (NamespaceConsoleLink ∈ general ↔ p = Platform.managedRhoai) := by
  have e1 : NamespaceConsoleLink ≠ "openshift-ingress" := by decide
  have e2 : NamespaceConsoleLink ≠ "redhat-ods-monitoring" := by decide
  have e3 : NamespaceConsoleLink ≠ "openshift-operators" := by decide
  constructor
  · rw [mem_secretCache c p ons NamespaceConsoleLink secret hons hs]
    simp [e1, e2, e3, Ne.symm h1, Ne.symm h2]
  · rw [mem_generalCache c p ons NamespaceConsoleLink general hons hg]
    simp [e1, e2, e3, Ne.symm h1, Ne.symm h2]

/-- C4 witness: on the non-managed platform with concrete distinct
namespaces, neither computed set contains the console-link namespace. -/
theorem console_link_iff_managed_witness :
    (NamespaceConsoleLink ∈ secretSetW ↔ Platform.openDataHub = Platform.managedRhoai) ∧
    (NamespaceConsoleLink ∈ generalSetW ↔ Platform.openDataHub = Platform.managedRhoai) :=
  console_link_iff_managed okCluster Platform.openDataHub "opendatahub-operator-system"
    secretSetW generalSetW rfl (by decide) (by decide) rfl rfl

/-- C5: with the resolved operator and application namespaces distinct from
the extension-operator install namespace, the secret-cache set is contained
in the general-cache set unioned with the operator namespace, and the
general-cache set has strictly larger cardinality. -/
theorem secret_card_lt_general (c : ClusterEnv) (p : Platform) (ons : String)
    (secret general : Finset String)
    (hons : c.operatorNs = .ok ons)
    (h1 : ons ≠ "openshift-operators")
    (h2 : c.appNamespace ≠ "openshift-operators")
    (hs : createSecretCacheConfig c p = .ok secret)
    (hg : createODHGeneralCacheConfig c p = .ok general) :
    secret ⊆ general ∪ {ons} ∧ secret.card < general.card := by
  have hsub : secret ⊆ general := by
    intro x hx
    rw [mem_secretCache c p ons x secret hons hs] at hx
    rw [mem_generalCache c p ons x general hons hg]
    tauto
  have hoo : "openshift-operators" ∈ general := by
    rw [mem_generalCache c p ons "openshift-operators" general hons hg]
    tauto
  have hno : "openshift-operators" ∉ secret := by
    rw [mem_secretCache c p ons "openshift-operators" secret hons hs]
    intro hx
    rcases hx with h | h | h | h | ⟨_, h⟩
    · exact absurd h (by decide)
    · exact h1 h.symm
    · exact absurd h (by decide)
    · exact h2 h.symm
    · exact absurd h (by decide)
  refine ⟨fun x hx => Finset.mem_union_left _ (hsub hx), ?_⟩
  exact Finset.card_lt_card ((Finset.ssubset_iff_of_subset hsub).mpr
    ⟨"openshift-operators", hoo, hno⟩)

/-- C5 witness: the concrete secret-cache set is contained in the concrete
general-cache set unioned with the operator namespace, and is strictly
smaller. -/
theorem secret_card_lt_general_witness :
    secretSetW ⊆ generalSetW ∪ {"opendatahub-operator-system"} ∧
    secretSetW.card < generalSetW.card :=
  secret_card_lt_general okCluster Platform.openDataHub "opendatahub-operator-system"
    secretSetW generalSetW rfl (by decide) (by decide) rfl rfl

/-- C8: wrapping any function yields a task that reports requiring leadership
and whose run invokes exactly the wrapped function on the given context. -/
theorem wrapper_requires_leadership (fn : RunnableFunc) (ctx : Ctx) :
    (leaderElectionRunnableFunc fn).NeedLeaderElection = true ∧
    (leaderElectionRunnableFunc fn).Start ctx = fn ctx :=
  ⟨rfl, rfl⟩

/-- C8 witness: a concrete wrapped function reports requiring leadership and
is invoked by the task's run. -/
theorem wrapper_requires_leadership_witness :
    (leaderElectionRunnableFunc (fun _ => Except.ok ())).NeedLeaderElection = true ∧
    (leaderElectionRunnableFunc (fun _ => Except.ok ())).Start { token := 0 } =
      (fun (_ : Ctx) => Except.ok ()) { token := 0 } :=
  wrapper_requires_leadership (fun _ => Except.ok ()) { token := 0 }

/-- C9: a freshly constructed operator has a nil manager, and calling `Start`
on it is a nil dereference (modelled `none`, a panic), never a returned error
value. -/
theorem new_operator_start_panics (cfg : Config) (ctx : Ctx) :
    (New cfg).mgr = none ∧
    MainOperator.Start (New cfg) ctx = none ∧
    (∀ r : Except String Unit, MainOperator.Start (New cfg) ctx ≠ some r) :=
  ⟨rfl, rfl, fun r h => by simp [MainOperator.Start, New] at h⟩

/-- C9 witness: a concrete freshly constructed operator has a nil manager and
`Start` on it is the nil-dereference outcome, not a returned error. -/
theorem new_operator_start_panics_witness :
    (New cfgW).mgr = none ∧
    MainOperator.Start (New cfgW) { token := 0 } = none ∧
    MainOperator.Start (New cfgW) { token := 0 } ≠ some (Except.ok ()) :=
  ⟨(new_operator_start_panics cfgW { token := 0 }).1,
   (new_operator_start_panics cfgW { token := 0 }).2.1,
   (new_operator_start_panics cfgW { token := 0 }).2.2 (Except.ok ())⟩

/-- C6 counterexample: when the manager rejects the default-DSCI task, the
startup-task phase is reached yet aborts before ever registering the cleanup
task, refuting the claim that the cleanup task is registered on every
execution that reaches the phase. -/
theorem cleanup_skipped_counterexample :
    Step.startupTasks ∈ (Setup envDSCIAddFails).1 ∧
    (addStartupTasks envDSCIAddFails).cleanupAdded = false ∧
    (Setup envDSCIAddFails).2 = .error "error scheduling DSCI creation: add failed" :=
  ⟨by decide, rfl, rfl⟩

/-- C6 (amended): on every execution of the startup-task phase in which the
earlier conditional task registrations do not fail, the cleanup task is
registered regardless of platform or environment, and a failure to register
it is only logged: the phase still returns success. -/
theorem cleanup_always_added (env : SetupEnv)
    (h1 : dsciDisabled env.disableDSCConfig = true ∨ env.mgrAddDSCI = .ok ())
    (h2 : env.platform ≠ Platform.managedRhoai ∨ env.mgrAddDSC = .ok ()) :
    (addStartupTasks env).cleanupAdded = true ∧
    (addStartupTasks env).result = .ok () := by
  have key : ∀ b : Bool, (addDSCTask env b).cleanupAdded = true ∧
      (addDSCTask env b).result = .ok () := by
    intro b
    unfold addDSCTask addCleanupTask
    rcases h2 with h2 | h2
    · simp [h2]
    · by_cases hp : env.platform = Platform.managedRhoai <;> simp [hp, h2]
  unfold addStartupTasks
  rcases h1 with h1 | h1
  · simp [h1]
    exact key false
  · by_cases hd : dsciDisabled env.disableDSCConfig = true
    · simp [hd]
      exact key false
    · simp [hd, h1]
      exact key true

/-- C6 witness: with the manager rejecting only the cleanup registration, the
cleanup task is still registered and the phase returns success. -/
theorem cleanup_always_added_witness :
    (addStartupTasks envCleanupAddFails).cleanupAdded = true ∧
    (addStartupTasks envCleanupAddFails).result = .ok () :=
  cleanup_always_added envCleanupAddFails (Or.inr rfl) (Or.inl (by decide))

/-- C7: if the operator namespace cannot be resolved, both cache-config
builders return that error and `Setup` never returns success (the application
namespace lookup is total in the source, so it has no failure case); whenever
a builder succeeds, the computed namespace set is nonempty. -/
theorem cache_failure_aborts_setup (c : ClusterEnv) (p : Platform) :
    (∀ e, c.operatorNs = .error e →
      createSecretCacheConfig c p = .error e ∧
      createODHGeneralCacheConfig c p = .error e ∧
      ∀ env : SetupEnv, env.cluster = c → env.platform = p → (Setup env).2 ≠ .ok ()) ∧
    (∀ s, createSecretCacheConfig c p = .ok s → s.Nonempty) ∧
    (∀ s, createODHGeneralCacheConfig c p = .ok s → s.Nonempty) := by
  refine ⟨?_, ?_, ?_⟩
  · intro e he
    have hc : getCommonCache c p = .error e := by
      unfold getCommonCache
      rw [he]
    refine ⟨by unfold createSecretCacheConfig; rw [hc],
            by unfold createODHGeneralCacheConfig; rw [hc], ?_⟩
    intro env hec hep hok
    have hsec : createSecretCacheConfig env.cluster env.platform = .error e := by
      rw [hec, hep]
      unfold createSecretCacheConfig
      rw [hc]
    have hbad : runStep env Step.cachePolicy =
        .error ("unable to get application namespace into cache: " ++ e) := by
      unfold runStep
      rw [hsec]
      rfl
    rcases runSteps_spec env stepOrder with ⟨h2, _, hall⟩ | ⟨_, _, _, e2, _, _, h2, _, _⟩
    · have hstep := hall Step.cachePolicy (by decide)
      rw [hbad] at hstep
      exact Except.noConfusion hstep
    · rw [show (Setup env).2 = Except.error e2 from h2] at hok
      exact Except.noConfusion hok
  · intro s hs
    unfold createSecretCacheConfig at hs
    cases hb : getCommonCache c p with
    | error e => rw [hb] at hs; exact absurd hs (by simp)
    | ok base =>
      rw [hb] at hs
      simp only [Except.ok.injEq] at hs
      subst hs
      exact ⟨"openshift-ingress", Finset.mem_insert_self _ _⟩
  · intro s hs
    unfold createODHGeneralCacheConfig at hs
    cases hb : getCommonCache c p with
    | error e => rw [hb] at hs; exact absurd hs (by simp)
    | ok base =>
      rw [hb] at hs
      simp only [Except.ok.injEq] at hs
      subst hs
      exact ⟨"openshift-ingress", Finset.mem_insert_self _ _⟩

/-- C7 witness: a failing operator-namespace lookup makes the secret-cache
builder return its error and `Setup` not succeed, while a succeeding builder
yields a nonempty set. -/
theorem cache_failure_aborts_setup_witness :
    createSecretCacheConfig errCluster Platform.openDataHub = .error "no operator namespace" ∧
    (Setup envNsFails).2 ≠ .ok () ∧
    secretSetW.Nonempty :=
  ⟨((cache_failure_aborts_setup errCluster Platform.openDataHub).1
      "no operator namespace" rfl).1,
   ((cache_failure_aborts_setup errCluster Platform.openDataHub).1
      "no operator namespace" rfl).2.2 envNsFails rfl rfl,
   (cache_failure_aborts_setup okCluster Platform.openDataHub).2.1 secretSetW rfl⟩

/-- C10: the cache default-transform hook is total: it always returns a nil
error, clears the managed fields of any object exposing accessible non-nil
managed fields, and returns every other object unchanged. -/
theorem default_transform_total (o : CacheEntry) :
    (DefaultTransform o).2 = none ∧
    (∀ mf payload, o = CacheEntry.withMeta (some mf) payload →
      (DefaultTransform o).1 = CacheEntry.withMeta none payload) ∧
    ((∀ mf payload, o ≠ CacheEntry.withMeta (some mf) payload) →
      (DefaultTransform o).1 = o) := by
  rcases o with ⟨mf, p⟩ | p
  · rcases mf with _ | m
    · exact ⟨rfl, fun mf payload h => by simp at h, fun _ => rfl⟩
    · refine ⟨rfl, ?_, fun h => absurd rfl (h m p)⟩
      intro mf payload h
      injection h with h1 h2
      subst h2
      rfl
  · exact ⟨rfl, fun mf payload h => by simp at h, fun _ => rfl⟩

/-- C10 witness: a concrete object with non-nil managed fields is cleared
with a nil error. -/
theorem default_transform_total_witness :
    (DefaultTransform (CacheEntry.withMeta (some ["manager"]) "cm")).2 = none ∧
    (DefaultTransform (CacheEntry.withMeta (some ["manager"]) "cm")).1 =
      CacheEntry.withMeta none "cm" :=
  ⟨(default_transform_total (CacheEntry.withMeta (some ["manager"]) "cm")).1,
   (default_transform_total (CacheEntry.withMeta (some ["manager"]) "cm")).2.1
     ["manager"] "cm" rfl⟩

end ODH
